import Mathlib

/-!
Verification of the Cinder CSI node server (`pkg/csi/cinder/nodeserver.go`).

The Go file is embedded shallowly: each handler becomes a Lean function over
explicit inputs standing for its environment (the `/dev/disk/by-id/` listing,
the mount provider obtained from `mount.GetMountProvider()`), and every call
the handler makes on the mount provider is recorded in a trace so that
"performs exactly one / zero mount operations" becomes a statement about the
returned trace.
-/

namespace CinderNode

/-- The two gRPC status codes the node server constructs (`codes.Internal`,
`codes.NotFound`). -/
inductive Code where
  | Internal
  | NotFound
deriving DecidableEq, Repr

/-- An error returned by a node-server operation: either a gRPC status error
built with `status.Error(code, msg)`, or a collaborator error returned
unwrapped (`return nil, err`). -/
inductive RpcError where
  | grpc (code : Code) (msg : String)
  | raw (msg : String)
deriving DecidableEq, Repr

/-- Go `strings.Replace(s, "-", "", -1)` on the character list: the old string
is the single character `-` and the new string is empty, so every occurrence
of `-` is deleted. -/
def replaceDashAll : List Char → List Char
  | [] => []
  | c :: rest => if c = '-' then replaceDashAll rest else c :: replaceDashAll rest

/-- Go `strings.Replace(volumeID, "-", "", -1)`. -/
def removeHyphens (s : String) : String := ⟨replaceDashAll s.data⟩

/-- Go slicing `volumeID[:20]` (the identifiers in scope are ASCII, so the
first 20 bytes are the first 20 characters; for identifiers shorter than 20
the Go expression panics, so the embedding is used only under a length
hypothesis). -/
def first20 (s : String) : String := ⟨s.data.take 20⟩

/-- `candidateDeviceNodes` from `getDevicePathBySerialID`: the three
candidate device names, in source order (KVM virtio, KVM virtio-scsi,
ESXi WWN). -/
def candidateDeviceNodes (volumeID : String) : List String :=
  [ "virtio-" ++ first20 volumeID,
    "scsi-0QEMU_QEMU_HARDDISK_" ++ first20 volumeID,
    "wwn-0x" ++ removeHyphens volumeID ]

/-- The fixed directory the resolver lists, `/dev/disk/by-id/`. -/
def byIdDir : String := "/dev/disk/by-id/"

/-- The inner loop of `getDevicePathBySerialID`:
`for _, c := range candidateDeviceNodes { if c == f.Name() { ... } }` —
scan the candidate list in order for one equal to the file name `f`. -/
def findCandidate (f : String) : List String → Option String
  | [] => none
  | c :: rest => if c = f then some c else findCandidate f rest

/-- The outer loop of `getDevicePathBySerialID`:
`for _, f := range files { ... }` — scan the directory entries in listing
order, returning the first entry some candidate is equal to. -/
def findDeviceFile (cands : List String) : List String → Option String
  | [] => none
  | f :: rest =>
    match findCandidate f cands with
    | some _ => some f
    | none => findDeviceFile cands rest

/-- `getDevicePathBySerialID(volumeID)`. The directory listing
`ioutil.ReadDir("/dev/disk/by-id/")` is passed in as `readDir`; on a listing
error the Go code discards the error (`files, _ := ioutil.ReadDir(...)`) and
iterates over the `nil` slice. On a match the result is
`path.Join("/dev/disk/by-id/", f.Name())`; the directory literal ends in a
slash, so the join is string concatenation. With no match the function
returns `status.Error(codes.Internal, "Failed to find device by volume ID")`. -/
def getDevicePathBySerialID (volumeID : String)
    (readDir : Except String (List String)) : Except RpcError String :=
  let candidates := candidateDeviceNodes volumeID
  let files : List String :=
    match readDir with
    | .ok fs => fs
    | .error _ => []
  match findDeviceFile candidates files with
  | some f => .ok (byIdDir ++ f)
  | none => .error (.grpc .Internal "Failed to find device by volume ID")

/-- The mount provider interface consumed by the node server
(`pkg/csi/cinder/mount`): each fallible operation returns `none`/`.ok` on
success and the error message otherwise. -/
structure MountProvider where
  scanForAttach : String → Option String
  isLikelyNotMountPointAttach : String → Except String Bool
  isLikelyNotMountPointDetach : String → Except String Bool
  formatAndMount : String → String → String → List String → Option String
  unmountPath : String → Option String
  getInstanceID : Except String String

/-- One call made on the mount provider, recorded in order of invocation. -/
inductive MountOp where
  | scanForAttach (devicePath : String)
  | checkAttach (targetPath : String)
  | formatAndMount (devicePath targetPath fsType : String) (options : List String)
  | checkDetach (targetPath : String)
  | unmountPath (targetPath : String)
deriving DecidableEq, Repr

/-- Recognizes a `FormatAndMount` call in a trace. -/
def isFormatAndMountOp : MountOp → Bool
  | .formatAndMount _ _ _ _ => true
  | _ => false

/-- Recognizes an `UnmountPath` call in a trace. -/
def isUnmountOp : MountOp → Bool
  | .unmountPath _ => true
  | _ => false

/-- The fields of `csi.NodePublishVolumeRequest` the handler reads:
`GetVolumeId`, `GetTargetPath`, `GetVolumeCapability().GetMount().GetFsType`,
`GetReadonly`, `GetVolumeCapability().GetMount().GetMountFlags`. -/
structure NodePublishVolumeRequest where
  volumeId : String
  targetPath : String
  fsType : String
  readonly : Bool
  mountFlags : List String

/-- `NodePublishVolume`. `getProvider` stands for `mount.GetMountProvider()`
and `readDir` for the `/dev/disk/by-id/` listing. The result pairs the
handler's return value with the trace of mount-provider calls. Error shapes
follow the source: resolver and provider-acquisition and scan failures are
returned unwrapped, mount-state-check and mount failures are wrapped as
`status.Error(codes.Internal, err.Error())`. The options list is built as
`"ro"`/`"rw"` first, then the request's mount flags in order. -/
def NodePublishVolume (getProvider : Except String MountProvider)
    (readDir : Except String (List String)) (req : NodePublishVolumeRequest) :
    Except RpcError Unit × List MountOp :=
  match getDevicePathBySerialID req.volumeId readDir with
  | .error e => (.error e, [])
  | .ok devicePath =>
    match getProvider with
    | .error e => (.error (.raw e), [])
    | .ok m =>
      match m.scanForAttach devicePath with
      | some e => (.error (.raw e), [.scanForAttach devicePath])
      | none =>
        match m.isLikelyNotMountPointAttach req.targetPath with
        | .error e =>
          (.error (.grpc .Internal e),
           [.scanForAttach devicePath, .checkAttach req.targetPath])
        | .ok notMnt =>
          if notMnt then
            let options := (if req.readonly then "ro" else "rw") :: req.mountFlags
            match m.formatAndMount devicePath req.targetPath req.fsType options with
            | some e =>
              (.error (.grpc .Internal e),
               [.scanForAttach devicePath, .checkAttach req.targetPath,
                .formatAndMount devicePath req.targetPath req.fsType options])
            | none =>
              (.ok (),
               [.scanForAttach devicePath, .checkAttach req.targetPath,
                .formatAndMount devicePath req.targetPath req.fsType options])
          else
            (.ok (), [.scanForAttach devicePath, .checkAttach req.targetPath])

/-- The field of `csi.NodeUnpublishVolumeRequest` the handler reads. -/
structure NodeUnpublishVolumeRequest where
  targetPath : String

/-- `NodeUnpublishVolume`: obtain the provider (failure unwrapped), check the
detach-variant mount state (failure wrapped as Internal); if the target is
not a mount point return `status.Error(codes.NotFound, "Volume not mounted")`,
otherwise unmount (failure wrapped as Internal). -/
def NodeUnpublishVolume (getProvider : Except String MountProvider)
    (req : NodeUnpublishVolumeRequest) :
    Except RpcError Unit × List MountOp :=
  match getProvider with
  | .error e => (.error (.raw e), [])
  | .ok m =>
    match m.isLikelyNotMountPointDetach req.targetPath with
    | .error e => (.error (.grpc .Internal e), [.checkDetach req.targetPath])
    | .ok notMnt =>
      if notMnt then
        (.error (.grpc .NotFound "Volume not mounted"), [.checkDetach req.targetPath])
      else
        match m.unmountPath req.targetPath with
        | some e =>
          (.error (.grpc .Internal e),
           [.checkDetach req.targetPath, .unmountPath req.targetPath])
        | none =>
          (.ok (), [.checkDetach req.targetPath, .unmountPath req.targetPath])

/-- `getNodeID()`: obtain the mount provider and call `GetInstanceID`; both
failures are returned as-is. -/
def getNodeID (getProvider : Except String MountProvider) : Except String String :=
  match getProvider with
  | .error e => .error e
  | .ok m => m.getInstanceID

/-- Outcome of the `NodeGetId` handler: a response carrying a node id, a
delegation to `DefaultNodeServer.NodeGetId`, or an error returned unwrapped. -/
inductive NodeGetIdResult where
  | response (nodeId : String)
  | defaultResponder
  | failure (msg : String)
deriving DecidableEq, Repr

/-- `NodeGetId`: call `getNodeID`; propagate its error unwrapped; answer with
the id when it is non-empty (`len(nodeID) > 0`), otherwise fall back to the
default node server. -/
def NodeGetId (getProvider : Except String MountProvider) : NodeGetIdResult :=
  match getNodeID getProvider with
  | .error e => .failure e
  | .ok nodeID => if nodeID.length > 0 then .response nodeID else .defaultResponder

/-- Outcome of the `NodeGetInfo` handler (same shape as `NodeGetId`, kept as
a distinct type because the gRPC response messages differ). -/
inductive NodeGetInfoResult where
  | response (nodeId : String)
  | defaultResponder
  | failure (msg : String)
deriving DecidableEq, Repr

/-- `NodeGetInfo`: call `getNodeID`; propagate its error unwrapped; answer
with the id when it is non-empty, otherwise fall back to the default node
server. -/
def NodeGetInfo (getProvider : Except String MountProvider) : NodeGetInfoResult :=
  match getNodeID getProvider with
  | .error e => .failure e
  | .ok nodeID => if nodeID.length > 0 then .response nodeID else .defaultResponder

/-- Agreement between the two identity handlers' outcomes: same identifier,
or both defaulting, or the same propagated error. -/
def idInfoAgree : NodeGetIdResult → NodeGetInfoResult → Prop
  | .response a, .response b => a = b
  | .defaultResponder, .defaultResponder => True
  | .failure a, .failure b => a = b
  | _, _ => False

/-- A mount provider used to instantiate the handler theorems on concrete
inputs: every operation succeeds, and the two mount-state checks answer with
the given booleans. -/
def sampleProvider (attachNotMnt detachNotMnt : Bool) : MountProvider :=
  { scanForAttach := fun _ => none,
    isLikelyNotMountPointAttach := fun _ => .ok attachNotMnt,
    isLikelyNotMountPointDetach := fun _ => .ok detachNotMnt,
    formatAndMount := fun _ _ _ _ => none,
    unmountPath := fun _ => none,
    getInstanceID := .ok "instance-1" }

/-- A mount provider whose instance-ID lookup gives the stated result. -/
def idProvider (iid : Except String String) : MountProvider :=
  { sampleProvider true true with getInstanceID := iid }

/-- A concrete publish request (read-write, one extra mount flag). -/
def sampleRequest : NodePublishVolumeRequest :=
  { volumeId := "0123456789abcdefghij", targetPath := "/mnt/target",
    fsType := "ext4", readonly := false, mountFlags := ["noatime"] }

/-- The same publish request with `readonly` set. -/
def sampleRequestRO : NodePublishVolumeRequest :=
  { sampleRequest with readonly := true }

end CinderNode

deriving instance DecidableEq for Except

namespace CinderNode

/-! Helper lemmas about the two loops of `getDevicePathBySerialID`. -/

/-- The inner candidate loop finds nothing exactly when the file name is not
among the candidates. -/
theorem findCandidate_eq_none_iff (f : String) (cands : List String) :
    findCandidate f cands = none ↔ f ∉ cands := by
  induction cands with
  | nil => simp [findCandidate]
  | cons c rest ih =>
    by_cases hc : c = f
    · subst hc
      simp [findCandidate]
    · simp [findCandidate, hc, ih, Ne.symm hc]

/-- If the file name is among the candidates, the inner loop finds it. -/
theorem findCandidate_isSome_of_mem (f : String) (cands : List String)
    (h : f ∈ cands) : (findCandidate f cands).isSome := by
  cases hfc : findCandidate f cands with
  | some c => rfl
  | none => exact absurd h ((findCandidate_eq_none_iff f cands).mp hfc)

/-- If no listed entry is a candidate, the outer loop finds nothing. -/
theorem findDeviceFile_eq_none (cands files : List String)
    (h : ∀ f ∈ files, f ∉ cands) : findDeviceFile cands files = none := by
  induction files with
  | nil => rfl
  | cons f rest ih =>
    have hf : findCandidate f cands = none :=
      (findCandidate_eq_none_iff f cands).mpr (h f (by simp))
    simp only [findDeviceFile, hf]
    exact ih fun g hg => h g (by simp [hg])

/-- The outer loop returns the first listed entry that is a candidate,
regardless of which candidate it matches. -/
theorem findDeviceFile_first (cands pre post : List String) (f : String)
    (hpre : ∀ g ∈ pre, g ∉ cands) (hf : f ∈ cands) :
    findDeviceFile cands (pre ++ f :: post) = some f := by
  induction pre with
  | nil =>
    have hs := findCandidate_isSome_of_mem f cands hf
    cases hfc : findCandidate f cands with
    | none => rw [hfc] at hs; exact absurd hs (by simp)
    | some c => simp [findDeviceFile, hfc]
  | cons g rest ih =>
    have hg : findCandidate g cands = none :=
      (findCandidate_eq_none_iff g cands).mpr (hpre g (by simp))
    simp only [List.cons_append, findDeviceFile, hg]
    exact ih fun g' hg' => hpre g' (by simp [hg'])

/-- Deleting hyphens is filtering out the hyphen character. -/
theorem replaceDashAll_eq_filter (l : List Char) :
    replaceDashAll l = l.filter (fun c => c != '-') := by
  induction l with
  | nil => rfl
  | cons c rest ih =>
    by_cases hc : c = '-'
    · subst hc
      simp [replaceDashAll, ih]
    · simp [replaceDashAll, hc, ih]

/-- C1 counterexample: volume identifier `0123456789abcdefghij` (length 20),
directory listing `[wwn-0x0123456789abcdefghij, virtio-0123456789abcdefghij]`.
Both entries are candidates for this identifier and they are distinct, so by
the claim the virtio candidate (first in priority order) should win; the code
returns the path of the WWN entry, which is listed first, and that path
differs from the virtio entry's path. -/
theorem resolve_candidate_priority_counterexample :
    getDevicePathBySerialID "0123456789abcdefghij"
      (.ok ["wwn-0x0123456789abcdefghij", "virtio-0123456789abcdefghij"]) =
      .ok "/dev/disk/by-id/wwn-0x0123456789abcdefghij" ∧
    20 ≤ ("0123456789abcdefghij" : String).length ∧
    ("wwn-0x0123456789abcdefghij" : String) ∈
      candidateDeviceNodes "0123456789abcdefghij" ∧
    ("virtio-0123456789abcdefghij" : String) ∈
      candidateDeviceNodes "0123456789abcdefghij" ∧
    ("wwn-0x0123456789abcdefghij" : String) ≠ "virtio-0123456789abcdefghij" ∧
    ("/dev/disk/by-id/wwn-0x0123456789abcdefghij" : String) ≠
      "/dev/disk/by-id/virtio-0123456789abcdefghij" := by
  refine ⟨by decide, by decide, by decide, by decide, by decide, by decide⟩

/-- C1 (amended): when several candidates match distinct directory entries,
the winner is decided by directory-entry order, not candidate priority order:
for a listing split as `pre ++ f :: post` where no entry of `pre` is a
candidate and `f` is any candidate, the resolver returns `f`'s path. -/
theorem resolve_entry_order_wins (volumeID : String) (h20 : 20 ≤ volumeID.length)
    (pre post : List String) (f : String)
    (hpre : ∀ g ∈ pre, g ∉ candidateDeviceNodes volumeID)
    (hf : f ∈ candidateDeviceNodes volumeID) :
    getDevicePathBySerialID volumeID (.ok (pre ++ f :: post)) =
      .ok (byIdDir ++ f) := by
  simp only [getDevicePathBySerialID]
  rw [findDeviceFile_first (candidateDeviceNodes volumeID) pre post f hpre hf]

/-- C1 (amended) witness: with the counterexample listing prefixed by an
unrelated entry, the resolver returns the WWN entry, the first listed
candidate. -/
theorem resolve_entry_order_wins_witness :
    getDevicePathBySerialID "0123456789abcdefghij"
      (.ok (["unrelated"] ++ "wwn-0x0123456789abcdefghij" ::
        ["virtio-0123456789abcdefghij"])) =
      .ok (byIdDir ++ "wwn-0x0123456789abcdefghij") :=
  resolve_entry_order_wins "0123456789abcdefghij" (by decide)
    ["unrelated"] ["virtio-0123456789abcdefghij"] "wwn-0x0123456789abcdefghij"
    (by decide) (by decide)

/-- C2 counterexample: volume identifier `0123456789abcdefghij`, a listing
with one non-matching entry. The resolver fails, but with a gRPC `Internal`
status (message `Failed to find device by volume ID`), not `NotFound` as the
claim states. -/
theorem resolve_no_match_notfound_counterexample :
    getDevicePathBySerialID "0123456789abcdefghij" (.ok ["unrelated-entry"]) =
      .error (.grpc .Internal "Failed to find device by volume ID") ∧
    20 ≤ ("0123456789abcdefghij" : String).length ∧
    Code.Internal ≠ Code.NotFound := by
  refine ⟨by decide, by decide, by decide⟩

/-- C2 (amended): when no candidate equals any listed entry, the resolver
fails with the gRPC `Internal` status and the message
`Failed to find device by volume ID`. -/
theorem resolve_no_match_internal (volumeID : String)
    (h20 : 20 ≤ volumeID.length) (files : List String)
    (hnone : ∀ f ∈ files, f ∉ candidateDeviceNodes volumeID) :
    getDevicePathBySerialID volumeID (.ok files) =
      .error (.grpc .Internal "Failed to find device by volume ID") := by
  simp only [getDevicePathBySerialID]
  rw [findDeviceFile_eq_none (candidateDeviceNodes volumeID) files hnone]

/-- C2 (amended) witness at the counterexample's input. -/
theorem resolve_no_match_internal_witness :
    getDevicePathBySerialID "0123456789abcdefghij" (.ok ["unrelated-entry"]) =
      .error (.grpc .Internal "Failed to find device by volume ID") :=
  resolve_no_match_internal "0123456789abcdefghij" (by decide)
    ["unrelated-entry"] (by decide)

/-- C6: for every identifier of length at least 20 the resolver builds
exactly three candidate names: `virtio-` plus the first 20 characters,
`scsi-0QEMU_QEMU_HARDDISK_` plus the first 20 characters, and `wwn-0x` plus
the identifier with every hyphen removed; the truncated key really has
20 characters. -/
theorem candidateDeviceNodes_spec (volumeID : String)
    (h20 : 20 ≤ volumeID.length) :
    (candidateDeviceNodes volumeID).length = 3 ∧
    candidateDeviceNodes volumeID =
      [ "virtio-" ++ first20 volumeID,
        "scsi-0QEMU_QEMU_HARDDISK_" ++ first20 volumeID,
        "wwn-0x" ++ (⟨volumeID.data.filter (fun c => c != '-')⟩ : String) ] ∧
    (first20 volumeID).length = 20 := by
  refine ⟨rfl, ?_, ?_⟩
  · simp only [candidateDeviceNodes, removeHyphens, replaceDashAll_eq_filter]
  · have hlen : (first20 volumeID).length = (volumeID.data.take 20).length := rfl
    rw [hlen, List.length_take]
    exact Nat.min_eq_left h20

/-- C6 witness: the three candidates for a concrete hyphenated identifier of
length 24, with the hyphens stripped from the WWN name. -/
theorem candidateDeviceNodes_spec_witness :
    (candidateDeviceNodes "0123-4567-89ab-cdef-ghij").length = 3 ∧
    candidateDeviceNodes "0123-4567-89ab-cdef-ghij" =
      [ "virtio-" ++ first20 "0123-4567-89ab-cdef-ghij",
        "scsi-0QEMU_QEMU_HARDDISK_" ++ first20 "0123-4567-89ab-cdef-ghij",
        "wwn-0x" ++
          (⟨("0123-4567-89ab-cdef-ghij" : String).data.filter
            (fun c => c != '-')⟩ : String) ] ∧
    (first20 "0123-4567-89ab-cdef-ghij").length = 20 :=
  candidateDeviceNodes_spec "0123-4567-89ab-cdef-ghij" (by decide)

/-- C7: a directory-listing failure is swallowed: the resolver's result on a
failed listing is identical to its result on an empty listing, namely the
no-match `Internal` failure — the listing error itself is never surfaced. -/
theorem resolve_listing_error_swallowed (volumeID : String)
    (h20 : 20 ≤ volumeID.length) (err : String) :
    getDevicePathBySerialID volumeID (.error err) =
      getDevicePathBySerialID volumeID (.ok []) ∧
    getDevicePathBySerialID volumeID (.error err) =
      .error (.grpc .Internal "Failed to find device by volume ID") := by
  exact ⟨rfl, rfl⟩

/-- C7 witness at a concrete identifier and listing error. -/
theorem resolve_listing_error_swallowed_witness :
    getDevicePathBySerialID "0123456789abcdefghij" (.error "permission denied") =
      getDevicePathBySerialID "0123456789abcdefghij" (.ok []) ∧
    getDevicePathBySerialID "0123456789abcdefghij" (.error "permission denied") =
      .error (.grpc .Internal "Failed to find device by volume ID") :=
  resolve_listing_error_swallowed "0123456789abcdefghij" (by decide)
    "permission denied"

/-- C3: when device resolution, provider acquisition and the scan succeed and
the attach-variant mount-state check answers `false` (already a mount point),
publish returns success and the trace holds no format-and-mount call. -/
theorem publish_already_mounted_noop (rd : Except String (List String))
    (m : MountProvider) (req : NodePublishVolumeRequest) (dev : String)
    (hdev : getDevicePathBySerialID req.volumeId rd = .ok dev)
    (hscan : m.scanForAttach dev = none)
    (hchk : m.isLikelyNotMountPointAttach req.targetPath = .ok false) :
    (NodePublishVolume (.ok m) rd req).fst = .ok () ∧
    (NodePublishVolume (.ok m) rd req).snd.filter isFormatAndMountOp = [] := by
  simp [NodePublishVolume, hdev, hscan, hchk, isFormatAndMountOp]

/-- C3 witness: publishing onto an already-mounted target with an all-success
provider succeeds without any format-and-mount call. -/
theorem publish_already_mounted_noop_witness :
    (NodePublishVolume (.ok (sampleProvider false true))
      (.ok ["virtio-0123456789abcdefghij"]) sampleRequest).fst = .ok () ∧
    (NodePublishVolume (.ok (sampleProvider false true))
      (.ok ["virtio-0123456789abcdefghij"]) sampleRequest).snd.filter
        isFormatAndMountOp = [] :=
  publish_already_mounted_noop (.ok ["virtio-0123456789abcdefghij"])
    (sampleProvider false true) sampleRequest
    "/dev/disk/by-id/virtio-0123456789abcdefghij" (by decide) rfl rfl

/-- C4: when provider acquisition succeeds and the detach-variant mount-state
check answers `true` (not a mount point), unpublish fails with gRPC
`NotFound` and the volume-not-mounted message, and the trace holds no unmount
call; the returned message is the claim's quoted message up to letter case. -/
theorem unpublish_not_mounted_notfound (m : MountProvider)
    (req : NodeUnpublishVolumeRequest)
    (hchk : m.isLikelyNotMountPointDetach req.targetPath = .ok true) :
    (NodeUnpublishVolume (.ok m) req).fst =
      .error (.grpc .NotFound "Volume not mounted") ∧
    (NodeUnpublishVolume (.ok m) req).snd.filter isUnmountOp = [] ∧
    (⟨("Volume not mounted" : String).data.map Char.toLower⟩ : String) =
      "volume not mounted" := by
  refine ⟨?_, ?_, by decide⟩ <;> simp [NodeUnpublishVolume, hchk, isUnmountOp]

/-- C4 witness: unpublishing a target that is not mounted fails with
`NotFound` and performs no unmount call. -/
theorem unpublish_not_mounted_notfound_witness :
    (NodeUnpublishVolume (.ok (sampleProvider true true))
      ⟨"/mnt/target"⟩).fst = .error (.grpc .NotFound "Volume not mounted") ∧
    (NodeUnpublishVolume (.ok (sampleProvider true true))
      ⟨"/mnt/target"⟩).snd.filter isUnmountOp = [] ∧
    (⟨("Volume not mounted" : String).data.map Char.toLower⟩ : String) =
      "volume not mounted" :=
  unpublish_not_mounted_notfound (sampleProvider true true) ⟨"/mnt/target"⟩ rfl

/-- C5: when every step up to the attach-variant mount-state check succeeds,
the check answers `true` (not yet mounted) and the mount succeeds, publish
returns success having made exactly one format-and-mount call, whose options
list is `ro`/`rw` (by the readonly flag) followed by the caller's extra mount
flags in their original order. -/
theorem publish_not_mounted_mounts_once (rd : Except String (List String))
    (m : MountProvider) (req : NodePublishVolumeRequest) (dev : String)
    (hdev : getDevicePathBySerialID req.volumeId rd = .ok dev)
    (hscan : m.scanForAttach dev = none)
    (hchk : m.isLikelyNotMountPointAttach req.targetPath = .ok true)
    (hmnt : m.formatAndMount dev req.targetPath req.fsType
      ((if req.readonly then "ro" else "rw") :: req.mountFlags) = none) :
    (NodePublishVolume (.ok m) rd req).fst = .ok () ∧
    (NodePublishVolume (.ok m) rd req).snd.filter isFormatAndMountOp =
      [.formatAndMount dev req.targetPath req.fsType
        ((if req.readonly then "ro" else "rw") :: req.mountFlags)] := by
  simp [NodePublishVolume, hdev, hscan, hchk, hmnt, isFormatAndMountOp]

/-- C5 witness: both readonly settings at a concrete request; the single
format-and-mount call carries `rw`/`ro` first, then the extra flag. -/
theorem publish_not_mounted_mounts_once_witness :
    ((NodePublishVolume (.ok (sampleProvider true true))
      (.ok ["virtio-0123456789abcdefghij"]) sampleRequest).fst = .ok () ∧
    (NodePublishVolume (.ok (sampleProvider true true))
      (.ok ["virtio-0123456789abcdefghij"]) sampleRequest).snd.filter
        isFormatAndMountOp =
      [.formatAndMount "/dev/disk/by-id/virtio-0123456789abcdefghij"
        "/mnt/target" "ext4" ["rw", "noatime"]]) ∧
    ((NodePublishVolume (.ok (sampleProvider true true))
      (.ok ["virtio-0123456789abcdefghij"]) sampleRequestRO).fst = .ok () ∧
    (NodePublishVolume (.ok (sampleProvider true true))
      (.ok ["virtio-0123456789abcdefghij"]) sampleRequestRO).snd.filter
        isFormatAndMountOp =
      [.formatAndMount "/dev/disk/by-id/virtio-0123456789abcdefghij"
        "/mnt/target" "ext4" ["ro", "noatime"]]) :=
  ⟨publish_not_mounted_mounts_once (.ok ["virtio-0123456789abcdefghij"])
      (sampleProvider true true) sampleRequest
      "/dev/disk/by-id/virtio-0123456789abcdefghij" (by decide) rfl rfl rfl,
   publish_not_mounted_mounts_once (.ok ["virtio-0123456789abcdefghij"])
      (sampleProvider true true) sampleRequestRO
      "/dev/disk/by-id/virtio-0123456789abcdefghij" (by decide) rfl rfl rfl⟩

/-- C8: the identity query answers with the provider's instance ID exactly
when it is non-empty; an empty ID falls through to the default responder;
a lookup or provider-acquisition failure is returned unwrapped. -/
theorem nodeGetId_spec (getProvider : Except String MountProvider) :
    (∀ m s, getProvider = .ok m → m.getInstanceID = .ok s → 0 < s.length →
      NodeGetId getProvider = .response s) ∧
    (∀ m, getProvider = .ok m → m.getInstanceID = .ok "" →
      NodeGetId getProvider = .defaultResponder) ∧
    (∀ m e, getProvider = .ok m → m.getInstanceID = .error e →
      NodeGetId getProvider = .failure e) ∧
    (∀ e, getProvider = .error e → NodeGetId getProvider = .failure e) := by
  refine ⟨?_, ?_, ?_, ?_⟩
  · intro m s hm hs hlen
    subst hm
    simp [NodeGetId, getNodeID, hs, Nat.pos_iff_ne_zero.mp hlen]
  · intro m hm hs
    subst hm
    simp [NodeGetId, getNodeID, hs]
  · intro m e hm he
    subst hm
    simp [NodeGetId, getNodeID, he]
  · intro e he
    subst he
    simp [NodeGetId, getNodeID]

/-- C8 witness: the four provider behaviours at concrete inputs. -/
theorem nodeGetId_spec_witness :
    NodeGetId (.ok (idProvider (.ok "instance-1"))) = .response "instance-1" ∧
    NodeGetId (.ok (idProvider (.ok ""))) = .defaultResponder ∧
    NodeGetId (.ok (idProvider (.error "metadata down"))) =
      .failure "metadata down" ∧
    NodeGetId (.error "no provider") = .failure "no provider" :=
  ⟨(nodeGetId_spec _).1 _ "instance-1" rfl rfl (by decide),
   (nodeGetId_spec _).2.1 _ rfl rfl,
   (nodeGetId_spec _).2.2.1 _ "metadata down" rfl rfl,
   (nodeGetId_spec _).2.2.2 "no provider" rfl⟩

/-- C9: for any provider behaviour the two identity handlers agree: both
answer the same identifier, both delegate to the default responder, or both
propagate the same error. -/
theorem nodeGetId_nodeGetInfo_agree (getProvider : Except String MountProvider) :
    idInfoAgree (NodeGetId getProvider) (NodeGetInfo getProvider) := by
  cases h : getNodeID getProvider with
  | error e => simp [NodeGetId, NodeGetInfo, h, idInfoAgree]
  | ok s =>
    by_cases hl : s.length > 0 <;>
      simp [NodeGetId, NodeGetInfo, h, hl, idInfoAgree]

/-- Two strings with a common suffix but prefixes of different lengths
differ (used to step the candidate loop past the virtio name). -/
theorem virtio_ne_scsi (s : String) :
    "virtio-" ++ s ≠ "scsi-0QEMU_QEMU_HARDDISK_" ++ s := by
  intro h
  have hlen := congrArg String.length h
  rw [String.length_append, String.length_append] at hlen
  have h7 : ("virtio-" : String).length = 7 := rfl
  have h25 : ("scsi-0QEMU_QEMU_HARDDISK_" : String).length = 25 := rfl
  rw [h7, h25] at hlen
  omega

/-- C10: two distinct identifiers of length at least 20 sharing their first
20 characters get identical virtio and virtio-scsi candidate names, so
against a directory holding only the shared virtio entry — or only the
shared scsi entry — both volumes resolve to the same device path. -/
theorem resolve_not_injective (id1 id2 : String) (hne : id1 ≠ id2)
    (h1 : 20 ≤ id1.length) (h2 : 20 ≤ id2.length)
    (hpre : first20 id1 = first20 id2) :
    ("virtio-" ++ first20 id1 = "virtio-" ++ first20 id2 ∧
      "scsi-0QEMU_QEMU_HARDDISK_" ++ first20 id1 =
        "scsi-0QEMU_QEMU_HARDDISK_" ++ first20 id2) ∧
    (getDevicePathBySerialID id1 (.ok ["virtio-" ++ first20 id1]) =
        .ok (byIdDir ++ ("virtio-" ++ first20 id1)) ∧
      getDevicePathBySerialID id2 (.ok ["virtio-" ++ first20 id1]) =
        .ok (byIdDir ++ ("virtio-" ++ first20 id1))) ∧
    (getDevicePathBySerialID id1
        (.ok ["scsi-0QEMU_QEMU_HARDDISK_" ++ first20 id1]) =
        .ok (byIdDir ++ ("scsi-0QEMU_QEMU_HARDDISK_" ++ first20 id1)) ∧
      getDevicePathBySerialID id2
        (.ok ["scsi-0QEMU_QEMU_HARDDISK_" ++ first20 id1]) =
        .ok (byIdDir ++ ("scsi-0QEMU_QEMU_HARDDISK_" ++ first20 id1))) := by
  refine ⟨⟨by rw [hpre], by rw [hpre]⟩, ⟨?_, ?_⟩, ⟨?_, ?_⟩⟩ <;>
    simp [getDevicePathBySerialID, candidateDeviceNodes, findDeviceFile,
      findCandidate, hpre, virtio_ne_scsi]

/-- C10 witness: two 23-character identifiers differing only past position
20 resolve to the same device path through either shared candidate. -/
theorem resolve_not_injective_witness :
    (("virtio-" ++ first20 "0123456789abcdefghijXYZ" =
        "virtio-" ++ first20 "0123456789abcdefghijABC" ∧
      "scsi-0QEMU_QEMU_HARDDISK_" ++ first20 "0123456789abcdefghijXYZ" =
        "scsi-0QEMU_QEMU_HARDDISK_" ++ first20 "0123456789abcdefghijABC") ∧
    (getDevicePathBySerialID "0123456789abcdefghijXYZ"
        (.ok ["virtio-" ++ first20 "0123456789abcdefghijXYZ"]) =
        .ok (byIdDir ++ ("virtio-" ++ first20 "0123456789abcdefghijXYZ")) ∧
      getDevicePathBySerialID "0123456789abcdefghijABC"
        (.ok ["virtio-" ++ first20 "0123456789abcdefghijXYZ"]) =
        .ok (byIdDir ++ ("virtio-" ++ first20 "0123456789abcdefghijXYZ"))) ∧
    (getDevicePathBySerialID "0123456789abcdefghijXYZ"
        (.ok ["scsi-0QEMU_QEMU_HARDDISK_" ++
          first20 "0123456789abcdefghijXYZ"]) =
        .ok (byIdDir ++ ("scsi-0QEMU_QEMU_HARDDISK_" ++
          first20 "0123456789abcdefghijXYZ")) ∧
      getDevicePathBySerialID "0123456789abcdefghijABC"
        (.ok ["scsi-0QEMU_QEMU_HARDDISK_" ++
          first20 "0123456789abcdefghijXYZ"]) =
        .ok (byIdDir ++ ("scsi-0QEMU_QEMU_HARDDISK_" ++
          first20 "0123456789abcdefghijXYZ")))) :=
  resolve_not_injective "0123456789abcdefghijXYZ" "0123456789abcdefghijABC"
    (by decide) (by decide) (by decide) (by decide)

end CinderNode
